import Mathlib

/-!
Shallow embedding of the `tips` CLI display session core.

The Go sources embedded here:
* `Tip`, `TipsData`, `loadTips`, `addTip`, `removeTip`, `getRandomTip`
  (storage layer);
* the Bubble Tea `model`, `Update` and `View` functions (TUI state machine).

Modelling conventions:
* `time.Time` values are abstract `Nat` timestamps; durations are counted in
  minutes (the source converts minutes to a `time.Duration` at construction
  and back to minutes when rendering, so nothing is lost).
* `rand.Intn n` is modelled by `randIdx % n` for a caller-supplied `randIdx`,
  which ranges over every index the generator can produce.
* the filesystem read performed by `loadTips` is an explicit `FileRead`
  input, and JSON decoding of a non-empty file is a caller-supplied
  `unmarshal` function (the claims under study never reach it).
* `saveTips` is an effect: the reducer records each invocation (the exact
  collection passed) in `UpdateResult.saves`, and the outcome of the write is
  a caller-supplied `saveRes` function, `none` meaning success and `some e`
  the error string, mirroring Go's `error` result.
* ANSI colour styling (lipgloss) is presentation-only and is dropped: the
  styled fragments are concatenated raw.
-/

namespace Tips

/-- Go struct `Tip` (storage layer): id, topic, content, creation time. -/
structure Tip where
  id : String
  topic : String
  content : String
  createdAt : Nat
deriving Repr, DecidableEq

/-- Go struct `TipsData`: the whole stored collection, field `Tips`. -/
structure TipsData where
  tips : List Tip
deriving Repr, DecidableEq

/-- Possible outcomes of locating and reading the tips file, the inputs that
`loadTips` branches on in Go (`os.UserHomeDir`, `os.Stat`, `os.ReadFile`). -/
inductive FileRead where
  | noHomeDir (e : String)
  | missing
  | readFailed (e : String)
  | contents (data : String)
deriving Repr, DecidableEq

/-- Go `loadTips`: missing file and zero-length file both give an empty
collection with no error; a read failure or a JSON decode failure is wrapped
into an error message. -/
def loadTips (file : FileRead)
    (unmarshal : String → Except String TipsData) : Except String TipsData :=
  match file with
  | FileRead.noHomeDir e => Except.error ("failed to get tips file path: " ++ e)
  | FileRead.missing => Except.ok ⟨[]⟩
  | FileRead.readFailed e => Except.error ("failed to read tips file: " ++ e)
  | FileRead.contents data =>
    if data.length = 0 then Except.ok ⟨[]⟩
    else
      match unmarshal data with
      | Except.error e => Except.error ("failed to parse tips file: " ++ e)
      | Except.ok td => Except.ok td

/-- Go `strings.TrimSpace`: drop whitespace from both ends of the string. -/
def trimSpace (s : String) : String :=
  ⟨((s.data.dropWhile Char.isWhitespace).reverse.dropWhile
      Char.isWhitespace).reverse⟩

/-- Go `(*TipsData).addTip`: rejects inputs that are empty _before_
trimming, then appends a tip whose topic and content are trimmed.  The fresh
UUID and the current time are explicit inputs here. -/
def TipsData.addTip (td : TipsData) (topic content : String)
    (newId : String) (now : Nat) : TipsData :=
  if topic = "" ∨ content = "" then td
  else ⟨td.tips ++ [{ id := newId, topic := trimSpace topic,
                      content := trimSpace content, createdAt := now }]⟩

/-- Helper for `removeTip`: Go's loop removes the element at the first index
whose id matches and reports whether a match was found. -/
def removeFirst (tips : List Tip) (i : String) : List Tip × Bool :=
  match tips with
  | [] => ([], false)
  | t :: rest =>
    if t.id = i then (rest, true)
    else
      let r := removeFirst rest i
      (t :: r.1, r.2)

/-- Go `(*TipsData).removeTip`: removes the first tip with the given id and
returns whether one was removed (the Go method mutates the receiver; here the
updated collection is returned alongside the flag). -/
def TipsData.removeTip (td : TipsData) (i : String) : TipsData × Bool :=
  let r := removeFirst td.tips i
  (⟨r.1⟩, r.2)

/-- The local `filteredTips` of Go `getRandomTip`: the tips whose topic is a
key of the `topicMap` built from `topics`, in order — all tips when `topics`
is empty. -/
def filteredTips (tips : List Tip) (topics : List String) : List Tip :=
  if topics.length > 0 then tips.filter (fun t => topics.contains t.topic)
  else tips

/-- Go `(*TipsData).getRandomTip`: `nil` on an empty collection, otherwise
index a uniform random draw (`rand.Intn`, modelled as `randIdx %
length`) into the filtered list, `nil` when the filter leaves nothing. -/
def TipsData.getRandomTip (td : TipsData) (topics : List String)
    (randIdx : Nat) : Option Tip :=
  if td.tips.length = 0 then none
  else
    if (filteredTips td.tips topics).length = 0 then none
    else (filteredTips td.tips topics).get?
      (randIdx % (filteredTips td.tips topics).length)

/-- Go struct `model` in the TUI: the Bubble Tea application state.
`tipsData` is a nullable pointer in Go, hence an `Option` here. -/
structure Model where
  tipsData : Option TipsData
  currentTip : Option Tip
  topicFilter : List String
  refreshRate : Nat
  lastRefresh : Nat
  quit : Bool
  showNewTip : Bool
  message : String
deriving Repr, DecidableEq

/-- The message types `Update` switches on: key presses (Ctrl-C is matched on
`msg.Type` before the string cases), a reload result `*TipsData`, a timer
`tickMsg`, an `error` value, and any other Bubble Tea message (which falls
through the switch). -/
inductive Msg where
  | keyCtrlC
  | key (s : String)
  | tipsLoaded (td : TipsData)
  | tick (t : Nat)
  | err (e : String)
  | other
deriving Repr, DecidableEq

/-- The commands `Update` can return: `tea.Quit`, `tickCmd d` and
`loadTipsCmd` (`tea.Batch` becomes a list). -/
inductive Cmd where
  | quit
  | tick (d : Nat)
  | load
deriving Repr, DecidableEq

/-- Result of one `Update` call: the new model, the returned commands, and
the trace of `saveTips` invocations (the collection passed to each). -/
structure UpdateResult where
  model : Model
  cmds : List Cmd
  saves : List TipsData
deriving Repr, DecidableEq

/-- The tail of Go `Update` (its last `if` block): when a new tip is wanted
and the collection is loaded, draw a random tip — keeping the old
`currentTip` when the draw comes back `nil` — then clear the flag and the
status message. -/
def selectStep (m : Model) (randIdx : Nat) : Model :=
  match m.tipsData with
  | some td =>
    if m.showNewTip then
      let m2 :=
        match td.getRandomTip m.topicFilter randIdx with
        | some newTip => { m with currentTip := some newTip }
        | none => m
      { m2 with showNewTip := false, message := "" }
    else m
  | none => m

/-- The `case "k"` body of Go `Update`: with a current tip and loaded data,
remove the current tip by id from the collection (an in-place mutation of
`m.tipsData` in Go, kept here as the updated collection regardless of the
save outcome), then save; a save error becomes the status message, success
sets the known message and requests a new tip.  Also returns the list of
`saveTips` invocations made. -/
def dismissStep (m : Model) (saveRes : TipsData → Option String) :
    Model × List TipsData :=
  match m.currentTip, m.tipsData with
  | some cur, some td =>
    let r := td.removeTip cur.id
    if r.2 then
      match saveRes r.1 with
      | some e =>
        ({ m with tipsData := some r.1, message := "Error saving: " ++ e }, [r.1])
      | none =>
        ({ m with tipsData := some r.1, message := "Tip marked as known!",
                  showNewTip := true }, [r.1])
    else (m, [])
  | _, _ => (m, [])

/-- Go `Update`: the single-threaded reducer.  Quit keys return immediately
with `tea.Quit`; reload results, ticks and errors return before the
selection block; every other key press falls through to `selectStep`. -/
def update (m : Model) (msg : Msg) (randIdx : Nat)
    (saveRes : TipsData → Option String) : UpdateResult :=
  match msg with
  | Msg.keyCtrlC => ⟨{ m with quit := true }, [Cmd.quit], []⟩
  | Msg.key s =>
    match s with
    | "q" => ⟨{ m with quit := true }, [Cmd.quit], []⟩
    | "n" => ⟨selectStep { m with showNewTip := true } randIdx, [], []⟩
    | "k" =>
      let d := dismissStep m saveRes
      ⟨selectStep d.1 randIdx, [], d.2⟩
    | _ => ⟨selectStep m randIdx, [], []⟩
  | Msg.tipsLoaded td =>
    ⟨{ m with tipsData := some td, showNewTip := true }, [], []⟩
  | Msg.tick t =>
    ⟨{ m with showNewTip := true, lastRefresh := t },
      [Cmd.tick m.refreshRate, Cmd.load], []⟩
  | Msg.err e => ⟨{ m with message := "Error: " ++ e }, [], []⟩
  | Msg.other => ⟨selectStep m randIdx, [], []⟩

/-- Go `fmt.Sprintf("%v", xs)` on a string slice: elements separated by
spaces inside square brackets. -/
def formatStringList (l : List String) : String :=
  "[" ++ String.intercalate " " l ++ "]"

/-- Go `View`: pure render of the model.  The colour styling applied in the
final branch is dropped (presentation-only); the strings of every other
branch are verbatim. -/
def view (m : Model) : String :=
  if m.quit then ""
  else
    match m.tipsData with
    | none => "Loading tips..."
    | some td =>
      if td.tips.length = 0 then
        "No tips found. Generate some tips first using: tips generate -t <topic>\n\nPress 'q' to quit."
      else
        match m.currentTip with
        | none =>
          if m.topicFilter.length > 0 then
            "No tips found for topics: " ++ formatStringList m.topicFilter ++
              "\n\nPress 'q' to quit."
          else "No tips available!\n\nPress 'q' to quit."
        | some tip =>
          "[" ++ tip.topic ++ "]" ++ " " ++ tip.content ++ "\n" ++
            "n:next | k:known | q:quit | refresh:" ++ toString m.refreshRate ++ "m" ++
            (if m.message ≠ "" then "\n" ++ m.message else "")

/-! Concrete fixtures used by the counterexamples and witnesses below. -/

/-- A stored tip with id `"1"` and topic `git`. -/
def tip1 : Tip := { id := "1", topic := "git", content := "a", createdAt := 0 }

/-- A second tip sharing id `"1"` with `tip1` (duplicate ids are possible:
the loader does not enforce uniqueness). -/
def tipDup : Tip := { id := "1", topic := "vim", content := "b", createdAt := 0 }

/-- A stored tip with topic `bash`. -/
def bashTip : Tip := { id := "3", topic := "bash", content := "c", createdAt := 0 }

/-- A tip that is no longer in the collection (e.g. dropped by a reload)
while still referenced by `currentTip`. -/
def ghostTip : Tip := { id := "9", topic := "git", content := "gone", createdAt := 0 }

/-- A quiescent session displaying `tip1` out of the collection `[tip1]`. -/
def baseModel : Model :=
  { tipsData := some ⟨[tip1]⟩, currentTip := some tip1, topicFilter := [],
    refreshRate := 60, lastRefresh := 0, quit := false, showNewTip := false,
    message := "" }

/-- A persistence backend whose writes always succeed. -/
def saveOk : TipsData → Option String := fun _ => none

/-- A persistence backend whose writes always fail with a disk error. -/
def saveFail : TipsData → Option String := fun _ => some "disk full"

/-- A session whose displayed tip (`tip1`, topic `git`) survives in
`currentTip` although a reload replaced the collection with a single `bash`
tip, while the topic filter is `["git"]`: the filtered subset is empty. -/
def staleModel : Model :=
  { baseModel with tipsData := some ⟨[bashTip]⟩, topicFilter := ["git"] }

/-- A session whose collection holds two distinct tips sharing id `"1"`. -/
def dupModel : Model :=
  { baseModel with tipsData := some ⟨[tip1, tipDup]⟩ }

/-- A terminated session (`q` was pressed). -/
def quitModel : Model := { baseModel with quit := true }

/-- A session with a pending selection and a transient status message whose
`currentTip` id `"9"` is absent from the collection `[tip1]`. -/
def pendingGhostModel : Model :=
  { baseModel with
    currentTip := some ghostTip, showNewTip := true, message := "old message" }

/-- A session whose collection only has a `git` tip, with no current tip and
the topic filter `["bash"]`. -/
def filteredOutModel : Model :=
  { baseModel with currentTip := none, topicFilter := ["bash"] }

/-- A quiescent session whose `currentTip` id `"9"` is absent from the
collection `[tip1]` (no pending selection, no message). -/
def ghostQuietModel : Model := { baseModel with currentTip := some ghostTip }

/-! Helper lemmas about `removeFirst`, `filteredTips`, `selectStep` and
`dismissStep`. -/

/-- Membership in the filtered list means membership in the collection, and
membership of the topic in a non-empty filter. -/
theorem mem_filteredTips (tips : List Tip) (topics : List String) (tip : Tip)
    (h : tip ∈ filteredTips tips topics) :
    tip ∈ tips ∧ (topics ≠ [] → tip.topic ∈ topics) := by
  unfold filteredTips at h
  by_cases ht : topics.length > 0
  · rw [if_pos ht] at h
    rw [List.mem_filter] at h
    exact ⟨h.1, fun _ => by simpa using h.2⟩
  · rw [if_neg ht] at h
    refine ⟨h, fun hne => absurd ?_ hne⟩
    exact List.length_eq_zero.mp (Nat.eq_zero_of_not_pos ht)

/-- Removing an id that occurs nowhere leaves the list unchanged and reports
`false`. -/
theorem removeFirst_absent (tips : List Tip) (i : String)
    (h : i ∉ tips.map Tip.id) : removeFirst tips i = (tips, false) := by
  induction tips with
  | nil => rfl
  | cons t rest ih =>
    simp only [List.map_cons, List.mem_cons] at h
    push_neg at h
    have hne : ¬ t.id = i := fun he => h.1 he.symm
    simp [removeFirst, hne, ih h.2]

/-- Removing an id that occurs somewhere reports `true`. -/
theorem removeFirst_found (tips : List Tip) (i : String)
    (h : i ∈ tips.map Tip.id) : (removeFirst tips i).2 = true := by
  induction tips with
  | nil => simp at h
  | cons t rest ih =>
    by_cases he : t.id = i
    · simp [removeFirst, he]
    · simp only [List.map_cons, List.mem_cons] at h
      rcases h with h | h
      · exact absurd h.symm he
      · simp [removeFirst, he, ih h]

/-- A successful removal shortens the list by exactly one element. -/
theorem removeFirst_length (tips : List Tip) (i : String)
    (h : (removeFirst tips i).2 = true) :
    (removeFirst tips i).1.length + 1 = tips.length := by
  induction tips with
  | nil => simp [removeFirst] at h
  | cons t rest ih =>
    by_cases he : t.id = i
    · simp [removeFirst, he]
    · simp only [removeFirst, if_neg he] at h ⊢
      simpa using ih h

/-- When the ids are duplicate-free, the removed id is absent afterwards. -/
theorem removeFirst_nodup_absent (tips : List Tip) (i : String)
    (h : (tips.map Tip.id).Nodup) :
    i ∉ ((removeFirst tips i).1.map Tip.id) := by
  induction tips with
  | nil => simp [removeFirst]
  | cons t rest ih =>
    simp only [List.map_cons, List.nodup_cons] at h
    by_cases he : t.id = i
    · have h1 := h.1
      rw [he] at h1
      simpa [removeFirst, he] using h1
    · intro hmem
      simp only [removeFirst, if_neg he, List.map_cons, List.mem_cons] at hmem
      rcases hmem with h1 | h1
      · exact he h1.symm
      · exact ih h.2 h1

/-- The selection block never touches the collection. -/
theorem selectStep_tipsData (m : Model) (r : Nat) :
    (selectStep m r).tipsData = m.tipsData := by
  unfold selectStep
  split
  · split
    · split <;> rfl
    · rfl
  · rfl

/-- The selection block is a no-op when no selection is pending. -/
theorem selectStep_not_pending (m : Model) (r : Nat)
    (h : m.showNewTip = false) : selectStep m r = m := by
  unfold selectStep
  split
  · rw [h]
    simp
  · rfl

/-- When a selection is pending over a loaded collection and the draw comes
back empty, the selection block only clears the flag and the message; in
particular `currentTip` keeps its old value. -/
theorem selectStep_empty_draw (m : Model) (td : TipsData) (r : Nat)
    (htd : m.tipsData = some td) (hs : m.showNewTip = true)
    (hr : td.getRandomTip m.topicFilter r = none) :
    selectStep m r = { m with showNewTip := false, message := "" } := by
  unfold selectStep
  rw [htd, hs]
  simp [hr, htd]

/-- When a selection is pending over a loaded collection, the selection
block clears the status message and the flag, whatever the draw returns. -/
theorem selectStep_pending_clears (m : Model) (td : TipsData) (r : Nat)
    (htd : m.tipsData = some td) (hs : m.showNewTip = true) :
    (selectStep m r).message = "" ∧ (selectStep m r).showNewTip = false := by
  unfold selectStep
  rw [htd, hs]
  constructor <;> simp only [if_true]

/-- The `"k"` branch when the current tip is found and the save succeeds. -/
theorem dismissStep_success (m : Model) (cur : Tip) (td : TipsData)
    (sr : TipsData → Option String)
    (hcur : m.currentTip = some cur) (htd : m.tipsData = some td)
    (hrem : (td.removeTip cur.id).2 = true)
    (hsave : sr (td.removeTip cur.id).1 = none) :
    dismissStep m sr =
      ({ m with
          tipsData := some (td.removeTip cur.id).1,
          message := "Tip marked as known!", showNewTip := true },
       [(td.removeTip cur.id).1]) := by
  unfold dismissStep
  rw [hcur, htd]
  simp only [hrem, hsave, if_true]

/-- The `"k"` branch when the current tip is found and the save fails: the
removal stays applied to the in-memory collection and the error becomes the
status message. -/
theorem dismissStep_save_error (m : Model) (cur : Tip) (td : TipsData)
    (sr : TipsData → Option String) (e : String)
    (hcur : m.currentTip = some cur) (htd : m.tipsData = some td)
    (hrem : (td.removeTip cur.id).2 = true)
    (hsave : sr (td.removeTip cur.id).1 = some e) :
    dismissStep m sr =
      ({ m with
          tipsData := some (td.removeTip cur.id).1,
          message := "Error saving: " ++ e },
       [(td.removeTip cur.id).1]) := by
  unfold dismissStep
  rw [hcur, htd]
  simp only [hrem, hsave, if_true]

/-- The `"k"` branch when the current tip's id is absent: nothing happens
and no save is attempted. -/
theorem dismissStep_not_found (m : Model) (cur : Tip) (td : TipsData)
    (sr : TipsData → Option String)
    (hcur : m.currentTip = some cur) (htd : m.tipsData = some td)
    (hrem : (td.removeTip cur.id).2 = false) :
    dismissStep m sr = (m, []) := by
  unfold dismissStep
  rw [hcur, htd]
  simp only [hrem]
  simp

/-- Pressing `k` routes through `dismissStep` then `selectStep`. -/
theorem update_key_k (m : Model) (r : Nat) (sr : TipsData → Option String) :
    update m (Msg.key "k") r sr =
      ⟨selectStep (dismissStep m sr).1 r, [], (dismissStep m sr).2⟩ := rfl

/-- Pressing `n` only requests a selection, then runs the selection block. -/
theorem update_key_n (m : Model) (r : Nat) (sr : TipsData → Option String) :
    update m (Msg.key "n") r sr =
      ⟨selectStep { m with showNewTip := true } r, [], []⟩ := rfl

/-! Claim theorems. -/

/-- Claim C1, counterexample: with the one-tip collection `[tip1]` displayed
and a persistence backend that always fails, pressing `k` leaves the
in-memory collection empty — the removal is not rolled back, so after the
event the collection differs from the collection before the dismiss
attempt. -/
theorem C1_rollback_counterexample :
    (update baseModel (Msg.key "k") 0 saveFail).model.tipsData = some ⟨[]⟩ ∧
    baseModel.tipsData = some ⟨[tip1]⟩ ∧
    (update baseModel (Msg.key "k") 0 saveFail).model.tipsData
      ≠ baseModel.tipsData :=
  ⟨by decide, by decide, by decide⟩

/-- Claim C1, amended: when the current tip is found in the collection and
the save fails, the in-memory collection keeps the removal (its length is
one less than before), the save was invoked with the shrunken collection,
and — when no selection was pending — the save error becomes the status
message: memory and disk diverge instead of being rolled back. -/
theorem C1_dismiss_no_rollback (m : Model) (cur : Tip) (td : TipsData)
    (r : Nat) (sr : TipsData → Option String) (e : String)
    (hcur : m.currentTip = some cur) (htd : m.tipsData = some td)
    (hrem : (td.removeTip cur.id).2 = true)
    (hsave : sr (td.removeTip cur.id).1 = some e) :
    (update m (Msg.key "k") r sr).model.tipsData
        = some (td.removeTip cur.id).1 ∧
    (td.removeTip cur.id).1.tips.length + 1 = td.tips.length ∧
    (update m (Msg.key "k") r sr).saves = [(td.removeTip cur.id).1] ∧
    (m.showNewTip = false →
      (update m (Msg.key "k") r sr).model.message = "Error saving: " ++ e) := by
  have hd := dismissStep_save_error m cur td sr e hcur htd hrem hsave
  rw [update_key_k, hd]
  refine ⟨?_, removeFirst_length td.tips cur.id hrem, rfl, fun hs => ?_⟩
  · rw [selectStep_tipsData]
  · have hs2 : ({ m with
        tipsData := some (td.removeTip cur.id).1,
        message := "Error saving: " ++ e } : Model).showNewTip = false := hs
    dsimp only
    rw [selectStep_not_pending _ r hs2]

/-- Claim C1 witness: the amended theorem at the concrete failing session. -/
theorem C1_dismiss_no_rollback_witness :
    (update baseModel (Msg.key "k") 0 saveFail).model.tipsData
        = some (TipsData.removeTip ⟨[tip1]⟩ tip1.id).1 ∧
    (TipsData.removeTip ⟨[tip1]⟩ tip1.id).1.tips.length + 1
        = (⟨[tip1]⟩ : TipsData).tips.length ∧
    (update baseModel (Msg.key "k") 0 saveFail).saves
        = [(TipsData.removeTip ⟨[tip1]⟩ tip1.id).1] ∧
    (baseModel.showNewTip = false →
      (update baseModel (Msg.key "k") 0 saveFail).model.message
        = "Error saving: " ++ "disk full") :=
  C1_dismiss_no_rollback baseModel tip1 ⟨[tip1]⟩ 0 saveFail "disk full"
    rfl rfl (by decide) rfl

/-- Claim C2, counterexample: pressing `k` on the displayed tip with a
persistence backend that succeeds yields a state whose status message is
already empty — the confirmation message was cleared by the selection block
of the very same event, so it is never handed to the Renderer, not even for
one render cycle. -/
theorem C2_message_survival_counterexample :
    (update baseModel (Msg.key "k") 0 saveOk).model.message = "" ∧
    "" ≠ "Tip marked as known!" :=
  ⟨by decide, by decide⟩

/-- Claim C2, amended: a successful dismiss sets the confirmation message
together with the pending-selection flag, and the selection block at the end
of the same `update` call clears both, so the state produced by the dismiss
event always has an empty status message and no pending selection. -/
theorem C2_message_cleared_same_event (m : Model) (cur : Tip) (td : TipsData)
    (r : Nat) (sr : TipsData → Option String)
    (hcur : m.currentTip = some cur) (htd : m.tipsData = some td)
    (hrem : (td.removeTip cur.id).2 = true)
    (hsave : sr (td.removeTip cur.id).1 = none) :
    (update m (Msg.key "k") r sr).model.message = "" ∧
    (update m (Msg.key "k") r sr).model.showNewTip = false := by
  have hd := dismissStep_success m cur td sr hcur htd hrem hsave
  rw [update_key_k, hd]
  exact selectStep_pending_clears _ (td.removeTip cur.id).1 r rfl rfl

/-- Claim C2 witness: the amended theorem at the concrete session. -/
theorem C2_message_cleared_same_event_witness :
    (update baseModel (Msg.key "k") 0 saveOk).model.message = "" ∧
    (update baseModel (Msg.key "k") 0 saveOk).model.showNewTip = false :=
  C2_message_cleared_same_event baseModel tip1 ⟨[tip1]⟩ 0 saveOk
    rfl rfl (by decide) rfl

/-- Claim C3, counterexample: in `staleModel` the topic filter is `["git"]`,
the only collection tip has topic `bash` (the filtered subset is empty, the
draw returns nothing), and the previously displayed tip `tip1` is current;
pressing `n` runs the selection policy, after which `current` is not none —
it still points at the previously displayed tip — and the render shows that
stale tip instead of the no-tips-for-filter message. -/
theorem C3_empty_subset_counterexample :
    TipsData.getRandomTip ⟨[bashTip]⟩ ["git"] 0 = none ∧
    (update staleModel (Msg.key "n") 0 saveOk).model.currentTip = some tip1 ∧
    (update staleModel (Msg.key "n") 0 saveOk).model.currentTip ≠ none ∧
    view (update staleModel (Msg.key "n") 0 saveOk).model
      = "[git] a\nn:next | k:known | q:quit | refresh:60m" :=
  ⟨by decide, by decide, by decide, by decide⟩

/-- Claim C3, amended: when a selection is pending and the draw over the
filtered subset returns nothing, the selection block leaves `current`
unchanged — possibly still pointing at a previously displayed tip — and only
clears the pending flag and the status message. -/
theorem C3_empty_subset_keeps_current (m : Model) (td : TipsData) (r : Nat)
    (sr : TipsData → Option String) (htd : m.tipsData = some td)
    (hr : td.getRandomTip m.topicFilter r = none) :
    (update m (Msg.key "n") r sr).model.currentTip = m.currentTip := by
  rw [update_key_n,
    selectStep_empty_draw { m with showNewTip := true } td r htd rfl hr]

/-- Claim C3 witness: the amended theorem at the concrete stale session. -/
theorem C3_empty_subset_keeps_current_witness :
    (update staleModel (Msg.key "n") 0 saveOk).model.currentTip
      = staleModel.currentTip :=
  C3_empty_subset_keeps_current staleModel ⟨[bashTip]⟩ 0 saveOk rfl (by decide)

/-- Claim C4, counterexample: `dupModel`'s collection holds two distinct
tips that share the id `"1"`; dismissing the current tip (with a succeeding
save) removes only the first occurrence, so the collection shrinks by one
but the dismissed id `"1"` is still present in it afterwards. -/
theorem C4_duplicate_id_counterexample :
    dupModel.currentTip = some tip1 ∧ tip1.id = "1" ∧
    (update dupModel (Msg.key "k") 0 saveOk).model.tipsData
      = some ⟨[tipDup]⟩ ∧
    tipDup.id = "1" :=
  ⟨by decide, by decide, by decide, by decide⟩

/-- Claim C4, amended: when the current tip's id occurs in the collection
and the ids are duplicate-free, a dismiss with a succeeding save yields a
collection shorter by exactly one in which the dismissed id is absent, and
the save is invoked with exactly that post-removal collection (with
duplicate ids only the first occurrence would be removed). -/
theorem C4_dismiss_removes_current (m : Model) (cur : Tip) (td : TipsData)
    (r : Nat) (sr : TipsData → Option String)
    (hcur : m.currentTip = some cur) (htd : m.tipsData = some td)
    (hmem : cur.id ∈ td.tips.map Tip.id)
    (hnodup : (td.tips.map Tip.id).Nodup)
    (hsave : sr (td.removeTip cur.id).1 = none) :
    (update m (Msg.key "k") r sr).model.tipsData
        = some (td.removeTip cur.id).1 ∧
    (td.removeTip cur.id).1.tips.length + 1 = td.tips.length ∧
    cur.id ∉ ((td.removeTip cur.id).1.tips.map Tip.id) ∧
    (update m (Msg.key "k") r sr).saves = [(td.removeTip cur.id).1] := by
  have hrem : (td.removeTip cur.id).2 = true :=
    removeFirst_found td.tips cur.id hmem
  have hd := dismissStep_success m cur td sr hcur htd hrem hsave
  rw [update_key_k, hd]
  refine ⟨?_, removeFirst_length td.tips cur.id hrem,
    removeFirst_nodup_absent td.tips cur.id hnodup, rfl⟩
  rw [selectStep_tipsData]

/-- Claim C4 witness: the amended theorem at the concrete session. -/
theorem C4_dismiss_removes_current_witness :
    (update baseModel (Msg.key "k") 0 saveOk).model.tipsData
        = some (TipsData.removeTip ⟨[tip1]⟩ tip1.id).1 ∧
    (TipsData.removeTip ⟨[tip1]⟩ tip1.id).1.tips.length + 1
        = (⟨[tip1]⟩ : TipsData).tips.length ∧
    tip1.id ∉ ((TipsData.removeTip ⟨[tip1]⟩ tip1.id).1.tips.map Tip.id) ∧
    (update baseModel (Msg.key "k") 0 saveOk).saves
        = [(TipsData.removeTip ⟨[tip1]⟩ tip1.id).1] :=
  C4_dismiss_removes_current baseModel tip1 ⟨[tip1]⟩ 0 saveOk
    rfl rfl (by decide) (by decide) rfl

/-- Claim C5, counterexample: in the terminated session `quitModel` a
delivered tick is not a no-op — it schedules a next tick and a reload and
sets the pending-selection flag — and an in-flight reload result delivered
after termination still replaces the collection. -/
theorem C5_tick_after_quit_counterexample :
    quitModel.quit = true ∧
    (update quitModel (Msg.tick 5) 0 saveOk).cmds = [Cmd.tick 60, Cmd.load] ∧
    (update quitModel (Msg.tick 5) 0 saveOk).model.showNewTip = true ∧
    (update quitModel (Msg.tipsLoaded ⟨[]⟩) 0 saveOk).model.tipsData
      = some ⟨[]⟩ ∧
    quitModel.tipsData = some ⟨[tip1]⟩ :=
  ⟨by decide, by decide, by decide, by decide, by decide⟩

/-- Claim C5, amended: the reducer has no terminated guard — even in a state
with `quit` set, a tick schedules the next tick and a reload and requests a
selection, and a reload result replaces the collection and requests a
selection; discarding events delivered after quit is left to the hosting
event loop, which stops after `tea.Quit`. -/
theorem C5_no_terminated_guard (m : Model) (t r : Nat) (td : TipsData)
    (sr : TipsData → Option String) (_hq : m.quit = true) :
    update m (Msg.tick t) r sr =
      ⟨{ m with showNewTip := true, lastRefresh := t },
        [Cmd.tick m.refreshRate, Cmd.load], []⟩ ∧
    update m (Msg.tipsLoaded td) r sr =
      ⟨{ m with tipsData := some td, showNewTip := true }, [], []⟩ :=
  ⟨rfl, rfl⟩

/-- Claim C5 witness: the amended theorem at the concrete terminated
session. -/
theorem C5_no_terminated_guard_witness :
    update quitModel (Msg.tick 5) 0 saveOk =
      ⟨{ quitModel with showNewTip := true, lastRefresh := 5 },
        [Cmd.tick quitModel.refreshRate, Cmd.load], []⟩ ∧
    update quitModel (Msg.tipsLoaded ⟨[]⟩) 0 saveOk =
      ⟨{ quitModel with tipsData := some ⟨[]⟩, showNewTip := true }, [], []⟩ :=
  C5_no_terminated_guard quitModel 5 0 ⟨[]⟩ saveOk rfl

/-- Claim C6: any tip the selection policy returns is an element of the
collection, and when the topic filter is non-empty its topic is a member of
the filter. -/
theorem C6_selection_respects_filter (td : TipsData) (topics : List String)
    (r : Nat) (tip : Tip) (h : td.getRandomTip topics r = some tip) :
    tip ∈ td.tips ∧ (topics ≠ [] → tip.topic ∈ topics) := by
  unfold TipsData.getRandomTip at h
  by_cases h0 : td.tips.length = 0
  · rw [if_pos h0] at h
    exact Option.noConfusion h
  · rw [if_neg h0] at h
    by_cases h1 : (filteredTips td.tips topics).length = 0
    · rw [if_pos h1] at h
      exact Option.noConfusion h
    · rw [if_neg h1] at h
      exact mem_filteredTips td.tips topics tip (List.get?_mem h)

/-- Claim C6 witness: the theorem at a concrete draw through the filter
`["git"]`. -/
theorem C6_selection_respects_filter_witness :
    tip1 ∈ (⟨[tip1, bashTip]⟩ : TipsData).tips ∧
    (["git"] ≠ ([] : List String) → tip1.topic ∈ ["git"]) :=
  C6_selection_respects_filter ⟨[tip1, bashTip]⟩ ["git"] 0 tip1 (by decide)

/-- Claim C7: the guard in `addTip` checks emptiness before trimming, so the
whitespace-only topic `"   "` with content `"x"` is not rejected but
appended as a tip whose trimmed topic is the empty string — violating the
invariant that no persisted tip has an empty trimmed topic. -/
theorem C7_addTip_whitespace_violation :
    (TipsData.addTip ⟨[]⟩ "   " "x" "id-0" 0).tips.map Tip.topic = [""] ∧
    (TipsData.addTip ⟨[]⟩ "   " "x" "id-0" 0).tips.length = 1 :=
  ⟨by decide, by decide⟩

/-- Claim C8: the Renderer's case analysis — terminated gives empty output;
an empty collection gives the instructive generate-first message; a
non-empty collection with no current tip gives the message naming the
filter when the filter is non-empty, and the generic no-tips message when
it is empty. -/
theorem C8_view_cases (m : Model) (td : TipsData)
    (htd : m.tipsData = some td) :
    (m.quit = true → view m = "") ∧
    (m.quit = false → td.tips = [] →
      view m = "No tips found. Generate some tips first using: tips generate -t <topic>\n\nPress 'q' to quit.") ∧
    (m.quit = false → td.tips ≠ [] → m.currentTip = none →
      m.topicFilter ≠ [] →
      view m = "No tips found for topics: " ++ formatStringList m.topicFilter
        ++ "\n\nPress 'q' to quit.") ∧
    (m.quit = false → td.tips ≠ [] → m.currentTip = none →
      m.topicFilter = [] →
      view m = "No tips available!\n\nPress 'q' to quit.") := by
  refine ⟨fun hq => ?_, fun hq he => ?_, fun hq hne hc hf => ?_,
    fun hq hne hc hf => ?_⟩
  · unfold view
    rw [if_pos hq]
  · simp [view, hq, htd, he]
  · have hf2 : 0 < m.topicFilter.length := List.length_pos.mpr hf
    simp [view, hq, htd, hc, hne, hf2]
  · simp [view, hq, htd, hc, hne, hf]

/-- Claim C8 witness: the filter-naming branch at the concrete session with
filter `["bash"]` over a `git`-only collection. -/
theorem C8_view_cases_witness :
    view filteredOutModel = "No tips found for topics: "
      ++ formatStringList filteredOutModel.topicFilter
      ++ "\n\nPress 'q' to quit." :=
  (C8_view_cases filteredOutModel ⟨[tip1]⟩ rfl).2.2.1 rfl (by decide) rfl
    (by decide)

/-- Claim C9: loading when the tips file does not exist, and when it exists
with zero bytes, both yield an empty collection with no error, whatever the
JSON decoder would do. -/
theorem C9_load_missing_or_empty
    (unmarshal : String → Except String TipsData) :
    loadTips FileRead.missing unmarshal = Except.ok ⟨[]⟩ ∧
    loadTips (FileRead.contents "") unmarshal = Except.ok ⟨[]⟩ :=
  ⟨rfl, rfl⟩

/-- Claim C9 witness: the theorem at a decoder that always fails, showing
neither case ever consults it. -/
theorem C9_load_missing_or_empty_witness :
    loadTips FileRead.missing (fun _ => Except.error "bad json")
      = Except.ok ⟨[]⟩ ∧
    loadTips (FileRead.contents "") (fun _ => Except.error "bad json")
      = Except.ok ⟨[]⟩ :=
  C9_load_missing_or_empty (fun _ => Except.error "bad json")

/-- Claim C10, counterexample: in `pendingGhostModel` the current tip id
`"9"` is absent from the collection and pressing `k` indeed triggers no save
— but the session state does not stay unchanged: the selection that was
already pending resolves at the end of the event, replacing `current` and
clearing the transient status message. -/
theorem C10_absent_id_counterexample :
    pendingGhostModel.currentTip = some ghostTip ∧
    (ghostTip.id ∈ ((⟨[tip1]⟩ : TipsData)).tips.map Tip.id) = False ∧
    (update pendingGhostModel (Msg.key "k") 0 saveOk).saves = [] ∧
    (update pendingGhostModel (Msg.key "k") 0 saveOk).model.message = "" ∧
    pendingGhostModel.message = "old message" ∧
    (update pendingGhostModel (Msg.key "k") 0 saveOk).model
      ≠ pendingGhostModel :=
  ⟨by decide, by decide, by decide, by decide, by decide, by decide⟩

/-- Claim C10, amended: when the current tip's id is absent from the
collection, `removeTip` returns false and leaves the collection unchanged,
and the dismiss event triggers no save, keeps the collection, and — when no
selection was pending — leaves the whole session state unchanged (an
already pending selection still resolves at the end of the event, as for
any event). -/
theorem C10_absent_id_frame (m : Model) (cur : Tip) (td : TipsData)
    (r : Nat) (sr : TipsData → Option String)
    (hcur : m.currentTip = some cur) (htd : m.tipsData = some td)
    (habs : cur.id ∉ td.tips.map Tip.id) :
    td.removeTip cur.id = (td, false) ∧
    (update m (Msg.key "k") r sr).saves = [] ∧
    (update m (Msg.key "k") r sr).model.tipsData = some td ∧
    (m.showNewTip = false → (update m (Msg.key "k") r sr).model = m) := by
  have hrf := removeFirst_absent td.tips cur.id habs
  have hrem : (td.removeTip cur.id).2 = false := by
    unfold TipsData.removeTip
    rw [hrf]
  have hd := dismissStep_not_found m cur td sr hcur htd hrem
  rw [update_key_k, hd]
  refine ⟨?_, rfl, ?_, fun hs => selectStep_not_pending m r hs⟩
  · unfold TipsData.removeTip
    rw [hrf]
  · rw [selectStep_tipsData]
    exact htd

/-- Claim C10 witness: the amended theorem at the quiescent session whose
current tip id `"9"` is absent; the whole state is unchanged. -/
theorem C10_absent_id_frame_witness :
    TipsData.removeTip ⟨[tip1]⟩ ghostTip.id = (⟨[tip1]⟩, false) ∧
    (update ghostQuietModel (Msg.key "k") 0 saveOk).saves = [] ∧
    (update ghostQuietModel (Msg.key "k") 0 saveOk).model.tipsData
      = some ⟨[tip1]⟩ ∧
    (ghostQuietModel.showNewTip = false →
      (update ghostQuietModel (Msg.key "k") 0 saveOk).model
        = ghostQuietModel) :=
  C10_absent_id_frame ghostQuietModel ghostTip ⟨[tip1]⟩ 0 saveOk
    rfl rfl (by decide)

end Tips
